import Mathlib

/-!
Verification development for the AR activation subsystem of
`src/features/ar.ts` (the `ARMixin` of the model-viewer component).

The TypeScript source is shallowly embedded as executable Lean
definitions:

* browser platform constants (`IS_ANDROID`, `IS_AR_QUICKLOOK_CANDIDATE`,
  `IS_IOS`, `IS_WEBXR_AR_CANDIDATE`) become the fields of `Platform`;
* the element's reactive attributes (`ar`, `unstableWebxr`, `iosSrc`,
  `src`, `alt`) become the fields of `Attrs`;
* asynchronous, fallible collaborator calls (the renderer's
  `supportsPresentation()` and `present()`, and the host's
  `requestFullscreen()`) are passed in as `Except Unit _` values
  describing the settled outcome of the corresponding promise; a JS
  function that can throw is embedded with an `Except` result type, and
  a JS exception escaping an `async` method is the `Except.error` case
  of the embedded method;
* DOM side effects (anchor href/click, button visibility, listener
  binding, fullscreen element, shadow-root children) become explicit
  state records threaded through the functions.
-/

/-- The `ARMode` union type of `ar.ts` (line 58). -/
inductive ARMode
  | quickLook
  | arViewer
  | unstableWebxr
  | none
deriving DecidableEq, BEq, Repr

/-- The platform constants imported from `constants.js` (line 18).
They are fixed for a given browser session, so they are modelled as an
explicit parameter record. -/
structure Platform where
  isAndroid : Bool
  isARQuickLookCandidate : Bool
  isIOS : Bool
  isWebXRARCandidate : Bool
deriving DecidableEq, Repr

/-- The element attributes read by the AR mixin: `ar`,
`unstable-webxr`, `ios-src` (lines 79-86) and the base element's `src`
and `alt`.  A nullable string attribute is an `Option String`. -/
structure Attrs where
  ar : Bool
  unstableWebxr : Bool
  iosSrc : Option String
  src : Option String
  alt : Option String
deriving DecidableEq, Repr

/-- The `changedProperties` map consulted by `update()` (lines
180-185), restricted to the five keys the method tests with `has`. -/
structure ChangedProps where
  unstableWebxr : Bool
  iosSrc : Bool
  ar : Bool
  src : Bool
  alt : Bool
deriving DecidableEq, Repr

/-- `update()` returns early unless at least one of the five tracked
properties changed (lines 180-185). -/
def ChangedProps.relevant (c : ChangedProps) : Bool :=
  c.unstableWebxr || c.iosSrc || c.ar || c.src || c.alt

/-- Observable state of the `.ar-button` element: whether
`style.display` is `block`, and whether the click handler is currently
added as a listener (lines 207-215). -/
structure ButtonState where
  visible : Bool
  clickBound : Bool
deriving DecidableEq, Repr

/-- The mixin state that `update()` writes: the private `arMode` field
and the AR button's affordance state. -/
structure ARComponentState where
  arMode : ARMode
  arButton : ButtonState
deriving DecidableEq, Repr

/-- The public getter `canActivateAR` (lines 88-90):
`this.arMode !== ARMode.NONE`. -/
def canActivateAR (s : ARComponentState) : Bool :=
  s.arMode != ARMode.none

/-- The tail of `update()` (lines 194-215): from the three candidate
booleans, assign `arMode` by the if/else-if chain and set the button's
display and click listener from `showArButton`. -/
def applyCandidates (unstableWebxrCandidate arViewerCandidate iosQuickLookCandidate : Bool) :
    ARComponentState :=
  let showArButton := unstableWebxrCandidate || arViewerCandidate || iosQuickLookCandidate
  { arMode :=
      if unstableWebxrCandidate then ARMode.unstableWebxr
      else if arViewerCandidate then ARMode.arViewer
      else if iosQuickLookCandidate then ARMode.quickLook
      else ARMode.none,
    arButton := { visible := showArButton, clickBound := showArButton } }

/-- The async `update(changedProperties)` method (lines 177-216).

`pre` is the attribute state when the method starts; `post` is the
attribute state when execution resumes after the one possible
suspension point, the `await renderer.supportsPresentation()` inside
the first candidate expression.  `this.unstableWebxr` is read before
that await, while `this.ar` and `this.iosSrc` are read after it, so
they are read from `pre` and `post` respectively.  In a run with no
interleaved attribute writes, `pre = post`.

`supportsPresentation` is the settled outcome of the renderer query:
`Except.ok b` if the promise resolved with `b`, `Except.error ()` if it
rejected (or the call itself threw).  JS `&&` short-circuits, so the
query is only awaited when `this.unstableWebxr && IS_WEBXR_AR_CANDIDATE`
already holds; a rejection then escapes `update()` uncaught, which is
the `Except.error` result. -/
def update (plat : Platform) (ch : ChangedProps) (pre post : Attrs)
    (supportsPresentation : Except Unit Bool) (s : ARComponentState) :
    Except Unit ARComponentState :=
  if !ch.relevant then Except.ok s
  else
    match (if pre.unstableWebxr && plat.isWebXRARCandidate
           then supportsPresentation
           else Except.ok false) with
    | Except.error e => Except.error e
    | Except.ok unstableWebxrCandidate =>
      let arViewerCandidate := plat.isAndroid && post.ar
      let iosQuickLookCandidate :=
        plat.isIOS && plat.isARQuickLookCandidate && post.iosSrc.isSome
      Except.ok (applyCandidates unstableWebxrCandidate arViewerCandidate iosQuickLookCandidate)

/-- JS string coercion of a nullable value at a string-typed sink
(`setAttribute`, `new URL`): `null` prints as the string `"null"`.
This is how `this.iosSrc!` and `this.src!` behave at runtime when the
attribute is absent despite the non-null assertion. -/
def nullableToString : Option String → String
  | Option.some s => s
  | Option.none => "null"

/-- Unreserved characters of the ECMAScript `encodeURIComponent`
builtin: ASCII alphanumerics and `-_.!~*'()` pass through unescaped. -/
def uriUnreserved (c : Char) : Bool :=
  c.isAlpha || c.isDigit || c = '-' || c = '_' || c = '.' || c = '!' ||
  c = '~' || c = '*' || c = Char.ofNat 39 || c = '(' || c = ')'

/-- Uppercase hexadecimal digit for a value below 16. -/
def hexDigit (n : Nat) : Char :=
  if n < 10 then Char.ofNat (48 + n) else Char.ofNat (55 + n)

/-- Percent-escape of one byte, e.g. `%2F`. -/
def percentByte (b : Nat) : List Char :=
  ['%', hexDigit (b / 16), hexDigit (b % 16)]

/-- UTF-8 encoding of one character as a list of byte values. -/
def utf8BytesOfChar (c : Char) : List Nat :=
  let n := c.toNat
  if n < 128 then [n]
  else if n < 2048 then [192 + n / 64, 128 + n % 64]
  else if n < 65536 then [224 + n / 4096, 128 + n / 64 % 64, 128 + n % 64]
  else [240 + n / 262144, 128 + n / 4096 % 64, 128 + n / 64 % 64, 128 + n % 64]

/-- One character of `encodeURIComponent` output. -/
def encodeURIComponentChar (c : Char) : List Char :=
  if uriUnreserved c then [c] else List.flatten ((utf8BytesOfChar c).map percentByte)

/-- The ECMAScript `encodeURIComponent` builtin used by
`openARViewer` (lines 43 and 46): unreserved characters pass through,
everything else is percent-escaped byte-wise in UTF-8. -/
def encodeURIComponent (s : String) : String :=
  String.mk (List.flatten (s.data.map encodeURIComponentChar))

/-- A parsed absolute URL, as far as `openARViewer` consumes it: the
scheme (the `protocol` with its trailing colon removed, line 44) and
everything after the `://` separator. -/
structure URLRecord where
  scheme : String
  rest : String
deriving DecidableEq, Repr

/-- Serialization of a `URLRecord`, the model of `URL.toString()`
(line 49) for scheme-and-authority URLs. -/
def URLRecord.serialize (u : URLRecord) : String :=
  u.scheme ++ "://" ++ u.rest

/-- Split a character list at the first occurrence of `://`. -/
def splitScheme : List Char → Option (List Char × List Char)
  | [] => Option.none
  | ':' :: '/' :: '/' :: rest => Option.some ([], rest)
  | c :: rest =>
    match splitScheme rest with
    | Option.none => Option.none
    | Option.some (a, b) => Option.some (c :: a, b)

/-- The `new URL(...)` constructor (line 42), modelled for the
absolute `scheme://rest` shape the AR handoff consumes.  `Option.none`
is the `TypeError` the constructor throws on an input with no scheme
separator (a relative URL such as `model.glb`, or the string `"null"`
produced by a missing `src`). -/
def parseURL (s : String) : Option URLRecord :=
  match splitScheme s.data with
  | Option.none => Option.none
  | Option.some (scheme, rest) =>
    if scheme.isEmpty then Option.none
    else Option.some { scheme := String.mk scheme, rest := String.mk rest }

/-- State of the module-level Quick Look anchor element created in the
closure of `openIOSARQuickLook` (lines 26-29): its `rel` attribute, its
`href` attribute and whether `click()` has been invoked on it. -/
structure QuickLookAnchor where
  rel : String
  href : Option String
  clicked : Bool
deriving DecidableEq, Repr

/-- The Quick Look anchor as built at module load (lines 27-29):
`rel` is set to `ar`, no `href` yet, never clicked. -/
def initialQuickLookAnchor : QuickLookAnchor :=
  { rel := "ar", href := Option.none, clicked := false }

/-- `openIOSARQuickLook(usdzSrc)` (lines 31-34): set the anchor's
`href` to the given string and click it.  The `rel` attribute set at
module load is untouched. -/
def openIOSARQuickLook (usdzSrc : String) (a : QuickLookAnchor) : QuickLookAnchor :=
  { a with href := Option.some usdzSrc, clicked := true }

/-- State of the module-level AR viewer anchor element created in the
closure of `openARViewer` (line 38). -/
structure ARViewerAnchor where
  href : Option String
  clicked : Bool
deriving DecidableEq, Repr

/-- The AR viewer anchor as built at module load: no `href`, never
clicked. -/
def initialARViewerAnchor : ARViewerAnchor :=
  { href := Option.none, clicked := false }

/-- `openARViewer(gltfSrc, title)` (lines 40-55).  `location` is
`window.location.toString()`.  `new URL(gltfSrc)` throws on an
unparseable input, which escapes the function: the `Except.error`
case.  Otherwise the intent URI is assembled from the URL with its
protocol overwritten by `intent`, the encoded page location as `link`,
the encoded title, and the fixed `#Intent;...;end;` fragment naming
the original scheme, then set as `href` and clicked. -/
def openARViewer (gltfSrc title location : String) : Except Unit ARViewerAnchor :=
  match parseURL gltfSrc with
  | Option.none => Except.error ()
  | Option.some modelUrl =>
    let link := encodeURIComponent location
    let scheme := modelUrl.scheme
    let encodedTitle := encodeURIComponent title
    let intentUrl : URLRecord := { modelUrl with scheme := "intent" }
    let intent := intentUrl.serialize ++ "?link=" ++ link ++ "&title=" ++
      encodedTitle ++ "#Intent;scheme=" ++ scheme ++
      ";package=com.google.ar.core;action=android.intent.action.VIEW;end;"
    Except.ok { href := Option.some intent, clicked := true }

/-- The document's `fullscreenElement`: nothing fullscreen, this host
element, or some other element. -/
inductive FSElem
  | host
  | other
  | none
deriving DecidableEq, Repr

/-- Settled outcomes of the two promises an activation can await: the
host's `requestFullscreen()` and the renderer's `present(scene)` (the
latter resolves with the output element, represented by a `Nat` id). -/
structure ActivateEnv where
  fullscreenResult : Except Unit Unit
  presentResult : Except Unit Nat
deriving Repr

/-- Observable outcome of `$enterARWithWebXR` (lines 150-175): the
output element appended to the shadow root (if any), the final
`document.fullscreenElement`, whether `document.exitFullscreen()` was
called, and whether the outer catch logged the fullscreen-permission
warning. -/
structure WebXRResult where
  attachedOutput : Option Nat
  fullscreenElement : FSElem
  exitedFullscreen : Bool
  fullscreenDeniedWarned : Bool
deriving DecidableEq, Repr

/-- The protected async method `$enterARWithWebXR` (lines 150-175).

`fs0` is `document.fullscreenElement` when the method starts.  The
pending `requestFullscreen()` promise is initiated first and held; a
successful resolution means the document entered fullscreen on this
host.  `renderer.present(scene)` is awaited next:

* `present` resolves: the output element is appended, then the held
  fullscreen promise is awaited as the last statement of the inner
  `try`; if it rejects, the inner `catch` runs, awaits it again, and
  the second rejection reaches the outer `catch` — the output stays
  attached and fullscreen was never entered;
* `present` rejects: the inner `catch` awaits the held fullscreen
  promise; on success the document is fullscreen on this host, so the
  guard `document.fullscreenElement === this` passes and
  `document.exitFullscreen()` runs; on rejection the outer `catch`
  logs the permission warning and nothing was attached or entered.

Every path returns normally: the method never rejects. -/
def enterARWithWebXR (env : ActivateEnv) (fs0 : FSElem) : WebXRResult :=
  match env.presentResult with
  | Except.ok el =>
    match env.fullscreenResult with
    | Except.ok _ =>
      { attachedOutput := Option.some el, fullscreenElement := FSElem.host,
        exitedFullscreen := false, fullscreenDeniedWarned := false }
    | Except.error _ =>
      { attachedOutput := Option.some el, fullscreenElement := fs0,
        exitedFullscreen := false, fullscreenDeniedWarned := true }
  | Except.error _ =>
    match env.fullscreenResult with
    | Except.ok _ =>
      { attachedOutput := Option.none, fullscreenElement := FSElem.none,
        exitedFullscreen := true, fullscreenDeniedWarned := false }
    | Except.error _ =>
      { attachedOutput := Option.none, fullscreenElement := fs0,
        exitedFullscreen := false, fullscreenDeniedWarned := true }

/-- Observable outcome of one `activateAR()` call: the two module
anchors, whether `requestFullscreen()` was initiated and whether its
promise was ever awaited on this path, the WebXR output/fullscreen
state, and whether the no-mode warning was logged. -/
structure ActivateResult where
  quickLook : QuickLookAnchor
  arViewer : ARViewerAnchor
  fullscreenRequested : Bool
  fullscreenAwaited : Bool
  attachedOutput : Option Nat
  fullscreenElement : FSElem
  exitedFullscreen : Bool
  warnedNoMode : Bool
deriving DecidableEq, Repr

/-- The public async method `activateAR()` (lines 130-148), switching
on the current `arMode`:

* `quick-look`: `openIOSARQuickLook(this.iosSrc!)`;
* `unstable-webxr`: `await this.$enterARWithWebXR()`;
* `ar-viewer`: `this.requestFullscreen()` is initiated but its promise
  is dropped on the floor (never awaited or `.catch`ed), then
  `openARViewer(this.src!, this.alt || '')` runs unconditionally — its
  `new URL` throw escapes the `async` method, i.e. rejects the promise
  `activateAR()` returned, which is the `Except.error` case;
* default: log the no-mode warning.

`ql` and `av` are the current states of the two module anchors. -/
def activateAR (s : ARComponentState) (attrs : Attrs) (env : ActivateEnv)
    (fs0 : FSElem) (location : String) (ql : QuickLookAnchor) (av : ARViewerAnchor) :
    Except Unit ActivateResult :=
  match s.arMode with
  | ARMode.quickLook =>
    Except.ok { quickLook := openIOSARQuickLook (nullableToString attrs.iosSrc) ql,
                arViewer := av, fullscreenRequested := false, fullscreenAwaited := false,
                attachedOutput := Option.none, fullscreenElement := fs0,
                exitedFullscreen := false, warnedNoMode := false }
  | ARMode.unstableWebxr =>
    let r := enterARWithWebXR env fs0
    Except.ok { quickLook := ql, arViewer := av, fullscreenRequested := true,
                fullscreenAwaited := true, attachedOutput := r.attachedOutput,
                fullscreenElement := r.fullscreenElement,
                exitedFullscreen := r.exitedFullscreen, warnedNoMode := false }
  | ARMode.arViewer =>
    match openARViewer (nullableToString attrs.src) (attrs.alt.getD "") location with
    | Except.error e => Except.error e
    | Except.ok a =>
      Except.ok { quickLook := ql, arViewer := a, fullscreenRequested := true,
                  fullscreenAwaited := false, attachedOutput := Option.none,
                  fullscreenElement := fs0, exitedFullscreen := false,
                  warnedNoMode := false }
  | ARMode.none =>
    Except.ok { quickLook := ql, arViewer := av, fullscreenRequested := false,
                fullscreenAwaited := false, attachedOutput := Option.none,
                fullscreenElement := fs0, exitedFullscreen := false,
                warnedNoMode := true }

/-- Whether the promise returned by `activateAR()` resolved (rather
than rejected). -/
def activationResolves (r : Except Unit ActivateResult) : Bool :=
  match r with
  | Except.ok _ => true
  | Except.error _ => false

/-- Observable outcome of one run of the `fullscreenchange` handler:
whether `renderer.stopPresenting()` was called and whether a throw
from that call was caught and logged. -/
structure StopOutcome where
  stopAttempted : Bool
  stopErrorLogged : Bool
deriving DecidableEq, Repr

/-- The `onFullscreenchange` closure installed once by the constructor
(lines 109-121): if the document's fullscreen element is not this host
while the shared renderer's presented scene is still this host's
scene, call `renderer.stopPresenting()` inside a `try`/`catch` that
only logs; otherwise do nothing.  `stopPresenting` is the outcome of
the call were it made (`Except.error ()` if it would throw).  The
handler is total: no branch rethrows. -/
def onFullscreenchange (fullscreenElement : FSElem) (presentedSceneIsOurs : Bool)
    (stopPresenting : Except Unit Unit) : StopOutcome :=
  if fullscreenElement ≠ FSElem.host ∧ presentedSceneIsOurs then
    match stopPresenting with
    | Except.ok _ => { stopAttempted := true, stopErrorLogged := false }
    | Except.error _ => { stopAttempted := true, stopErrorLogged := true }
  else { stopAttempted := false, stopErrorLogged := false }

/-- Serializing a URL whose scheme was overwritten with `intent`
yields the `intent://` prefix followed by the remainder. -/
theorem intent_serialize (rest : String) :
    URLRecord.serialize { scheme := "intent", rest := rest } = "intent://" ++ rest := rfl

/-- Behavior of `update` when the capability query resolves with `b`:
if a tracked property changed, the state is rebuilt from the three
candidate booleans — the webxr candidate from the pre-await
`unstableWebxr` read, the other two from the post-await reads —
otherwise the call is a no-op. -/
theorem update_ok_spec (plat : Platform) (ch : ChangedProps) (pre post : Attrs)
    (b : Bool) (s : ARComponentState) :
    update plat ch pre post (Except.ok b) s =
      if ch.relevant then
        Except.ok (applyCandidates ((pre.unstableWebxr && plat.isWebXRARCandidate) && b)
          (plat.isAndroid && post.ar)
          (plat.isIOS && plat.isARQuickLookCandidate && post.iosSrc.isSome))
      else Except.ok s := by
  unfold update
  cases hr : ch.relevant
  · simp
  · cases hg : pre.unstableWebxr && plat.isWebXRARCandidate <;> simp [hg]

/-- Any successful run of `update` past the early return leaves the
state in the image of `applyCandidates`. -/
theorem update_ok_shape (plat : Platform) (ch : ChangedProps) (pre post : Attrs)
    (q : Except Unit Bool) (s s' : ARComponentState)
    (hch : ch.relevant = true)
    (h : update plat ch pre post q s = Except.ok s') :
    ∃ uw av ql : Bool, s' = applyCandidates uw av ql := by
  unfold update at h
  simp only [hch, Bool.not_true, Bool.false_eq_true, if_false] at h
  cases hq : (if pre.unstableWebxr && plat.isWebXRARCandidate then q else Except.ok false) with
  | error e => rw [hq] at h; simp at h
  | ok b =>
    rw [hq] at h
    simp only [Except.ok.injEq] at h
    exact ⟨b, plat.isAndroid && post.ar,
      plat.isIOS && plat.isARQuickLookCandidate && post.iosSrc.isSome, h.symm⟩

/-- The affordance invariant holds at every state `applyCandidates`
can produce. -/
theorem applyCandidates_invariant :
    ∀ uw av ql : Bool,
      ((applyCandidates uw av ql).arButton.visible = true ↔
        (applyCandidates uw av ql).arMode ≠ ARMode.none) ∧
      ((applyCandidates uw av ql).arButton.clickBound =
        (applyCandidates uw av ql).arButton.visible) ∧
      (canActivateAR (applyCandidates uw av ql) = true ↔
        (applyCandidates uw av ql).arMode ≠ ARMode.none) := by
  decide

/-- C1: for every combination of capability inputs, a mode-recomputing
run of `update()` (a tracked property changed, query resolved with
`supports`) selects exactly one AR mode by the fixed precedence:
`unstable-webxr` if the `unstable-webxr` attribute is set and the
platform reports WebXR presentation support (the `IS_WEBXR_AR_CANDIDATE`
platform constant together with the renderer's `supportsPresentation()`
result — the spec's single capability flag
platform-reports-webxr-presentation-support); otherwise `ar-viewer` if
the platform is Android and the `ar` attribute is set; otherwise
`quick-look` if the platform is iOS, a Quick Look candidate, and an
`ios-src` is present; otherwise `none`.  The right-hand side is a
single if/else-if chain, so exactly one mode is selected. -/
theorem update_mode_precedence (plat : Platform) (ch : ChangedProps) (a : Attrs)
    (supports : Bool) (s s' : ARComponentState)
    (hch : ch.relevant = true)
    (h : update plat ch a a (Except.ok supports) s = Except.ok s') :
    s'.arMode =
      if a.unstableWebxr && (plat.isWebXRARCandidate && supports) then ARMode.unstableWebxr
      else if plat.isAndroid && a.ar then ARMode.arViewer
      else if plat.isIOS && (plat.isARQuickLookCandidate && a.iosSrc.isSome) then
        ARMode.quickLook
      else ARMode.none := by
  rw [update_ok_spec, hch] at h
  simp only [if_true, Except.ok.injEq] at h
  subst h
  simp [applyCandidates, Bool.and_assoc]

/-- Witness for C1 at a concrete input: all platform flags set, both
opt-ins set, query resolves true; the recomputation ran and selected
`unstable-webxr`, the head of the precedence chain. -/
theorem update_mode_precedence_check :
    ChangedProps.relevant ⟨true, false, false, false, false⟩ = true ∧
    ARComponentState.arMode ⟨ARMode.unstableWebxr, ⟨true, true⟩⟩ = ARMode.unstableWebxr := by
  constructor
  · rfl
  · have h := update_mode_precedence ⟨true, true, true, true⟩ ⟨true, false, false, false, false⟩
      ⟨true, true, Option.some "model.usdz", Option.some "https://m.co/a.glb", Option.none⟩
      true ⟨ARMode.none, ⟨false, false⟩⟩ ⟨ARMode.unstableWebxr, ⟨true, true⟩⟩ rfl rfl
    exact h

/-- C2: after every completed mode-recomputing run of `update()` (a
tracked property changed and the returned promise resolved), the
affordance invariant holds: the AR button is visible iff the selected
mode is not `none`, the click handler is bound iff the button is
visible, and `canActivateAR` is true iff the selected mode is not
`none`. -/
theorem update_affordance_invariant (plat : Platform) (ch : ChangedProps)
    (pre post : Attrs) (q : Except Unit Bool) (s s' : ARComponentState)
    (hch : ch.relevant = true)
    (h : update plat ch pre post q s = Except.ok s') :
    (s'.arButton.visible = true ↔ s'.arMode ≠ ARMode.none) ∧
    (s'.arButton.clickBound = s'.arButton.visible) ∧
    (canActivateAR s' = true ↔ s'.arMode ≠ ARMode.none) := by
  obtain ⟨uw, av, ql, rfl⟩ := update_ok_shape plat ch pre post q s s' hch h
  exact applyCandidates_invariant uw av ql

/-- Witness for C2 at a concrete input: no platform flags, `ar`
changed, query would resolve false; `update` completes with mode
`none`, an invisible unbound button, and `canActivateAR` false. -/
theorem update_affordance_invariant_check :
    ((ARComponentState.arButton ⟨ARMode.none, ⟨false, false⟩⟩).visible = true ↔
      ARComponentState.arMode ⟨ARMode.none, ⟨false, false⟩⟩ ≠ ARMode.none) ∧
    ((ARComponentState.arButton ⟨ARMode.none, ⟨false, false⟩⟩).clickBound =
      (ARComponentState.arButton ⟨ARMode.none, ⟨false, false⟩⟩).visible) ∧
    (canActivateAR ⟨ARMode.none, ⟨false, false⟩⟩ = true ↔
      ARComponentState.arMode ⟨ARMode.none, ⟨false, false⟩⟩ ≠ ARMode.none) :=
  update_affordance_invariant ⟨false, false, false, false⟩ ⟨false, false, true, false, false⟩
    ⟨true, false, Option.none, Option.none, Option.none⟩
    ⟨true, false, Option.none, Option.none, Option.none⟩
    (Except.ok false) ⟨ARMode.none, ⟨false, false⟩⟩ ⟨ARMode.none, ⟨false, false⟩⟩ rfl rfl

/-- C3 counterexample: in `ar-viewer` mode with no `src` attribute set
(so `this.src!` is `null`, coerced to the unparseable string `"null"`
by `new URL`), the promise returned by `activateAR()` rejects: the
`TypeError` thrown by `new URL` inside `openARViewer` escapes the
`async` method, refuting the claim that `activateAR()` never rejects
to its caller. -/
theorem activateAR_rejects_unparseable_src :
    activateAR ⟨ARMode.arViewer, ⟨true, true⟩⟩
      ⟨true, false, Option.none, Option.none, Option.none⟩
      ⟨Except.ok (), Except.ok 0⟩ FSElem.none "https://example.com/page"
      initialQuickLookAnchor initialARViewerAnchor = Except.error () := rfl

/-- C3 amended: the promise returned by `activateAR()` resolves in
every mode and state except one case — `ar-viewer` mode with an absent
or unparseable primary asset reference, where the URL-construction
error rejects the promise.  In particular `quick-look`,
`unstable-webxr` and `none` activations never reject. -/
theorem activateAR_resolves_iff (s : ARComponentState) (attrs : Attrs)
    (env : ActivateEnv) (fs0 : FSElem) (location : String)
    (ql : QuickLookAnchor) (av : ARViewerAnchor) :
    activationResolves (activateAR s attrs env fs0 location ql av) =
      (!(s.arMode == ARMode.arViewer) || (parseURL (nullableToString attrs.src)).isSome) := by
  obtain ⟨m, btn⟩ := s
  cases m
  case quickLook => rfl
  case unstableWebxr => rfl
  case none => rfl
  case arViewer =>
    cases hp : parseURL (nullableToString attrs.src) <;>
      simp [activateAR, openARViewer, hp, activationResolves]
    all_goals decide

/-- C4: in `unstable-webxr` activation, whenever `present()` rejects
after the fullscreen request succeeded on this host, the method ends
with fullscreen explicitly exited (`exitFullscreen` was called and the
document's fullscreen element is cleared) and no output surface
attached to the shadow root — for any prior fullscreen state. -/
theorem enterARWithWebXR_present_rejection_recovery (fs0 : FSElem) :
    enterARWithWebXR ⟨Except.ok (), Except.error ()⟩ fs0 =
      { attachedOutput := Option.none, fullscreenElement := FSElem.none,
        exitedFullscreen := true, fullscreenDeniedWarned := false } := rfl

/-- C5 counterexample: on an Android device that is also a WebXR
candidate, with both `unstable-webxr` and `ar` set, a rejecting
`supportsPresentation()` query makes `update()` itself reject instead
of treating support as false and falling through (which would have
selected `ar-viewer`).  The failure propagates to the caller of the
recomputation, refuting the claim. -/
theorem update_query_failure_rejects :
    update ⟨true, false, false, true⟩ ⟨true, false, false, false, false⟩
      ⟨true, true, Option.none, Option.none, Option.none⟩
      ⟨true, true, Option.none, Option.none, Option.none⟩
      (Except.error ()) ⟨ARMode.none, ⟨false, false⟩⟩ = Except.error () := rfl

/-- C5 amended: when the capability query fails, `update()` treats
support as false and falls through only when the query is never
actually awaited (`unstable-webxr` unset or the platform not a WebXR
candidate, so `&&` short-circuits past it).  When the query is awaited
and rejects, the recomputation rejects with that failure and neither
mode nor affordance is changed. -/
theorem update_query_failure_spec (plat : Platform) (ch : ChangedProps)
    (pre post : Attrs) (s : ARComponentState) :
    update plat ch pre post (Except.error ()) s =
      if !ch.relevant then Except.ok s
      else if pre.unstableWebxr && plat.isWebXRARCandidate then Except.error ()
      else Except.ok (applyCandidates false (plat.isAndroid && post.ar)
             (plat.isIOS && plat.isARQuickLookCandidate && post.iosSrc.isSome)) := by
  unfold update
  cases hr : ch.relevant <;>
    cases hg : pre.unstableWebxr && plat.isWebXRARCandidate <;> simp [hg]

/-- C6 counterexample: a WebXR-candidate platform, `unstable-webxr`
set when the query starts (`pre`) but cleared while the query is
outstanding (`post`); the query resolves true.  The completed
recomputation applies `unstable-webxr` — a mode computed from the
outdated opt-in — although recomputing from the current inputs yields
`none` and the previous mode was also `none`.  No re-validation of
inputs happens, refuting the claim that a stale mode is never
applied. -/
theorem update_applies_stale_mode :
    update ⟨false, false, false, true⟩ ⟨true, false, false, false, false⟩
        ⟨false, true, Option.none, Option.none, Option.none⟩
        ⟨false, false, Option.none, Option.none, Option.none⟩
        (Except.ok true) ⟨ARMode.none, ⟨false, false⟩⟩ =
      Except.ok ⟨ARMode.unstableWebxr, ⟨true, true⟩⟩ ∧
    update ⟨false, false, false, true⟩ ⟨true, false, false, false, false⟩
        ⟨false, false, Option.none, Option.none, Option.none⟩
        ⟨false, false, Option.none, Option.none, Option.none⟩
        (Except.ok true) ⟨ARMode.none, ⟨false, false⟩⟩ =
      Except.ok ⟨ARMode.none, ⟨false, false⟩⟩ ∧
    ARMode.unstableWebxr ≠ ARMode.none :=
  ⟨rfl, rfl, by decide⟩

/-- C6 amended: `update()` performs no stale-result validation.  A
recomputation that resolves its query applies the mode assembled from
the `unstable-webxr` opt-in read before the await together with the
`ar` and `ios-src` values read after it; if inputs changed while the
query was outstanding, the applied mode mixes outdated and current
inputs. -/
theorem update_stale_read_spec (plat : Platform) (ch : ChangedProps)
    (pre post : Attrs) (b : Bool) (s : ARComponentState)
    (hch : ch.relevant = true) :
    update plat ch pre post (Except.ok b) s =
      Except.ok (applyCandidates ((pre.unstableWebxr && plat.isWebXRARCandidate) && b)
        (plat.isAndroid && post.ar)
        (plat.isIOS && plat.isARQuickLookCandidate && post.iosSrc.isSome)) := by
  rw [update_ok_spec, hch]
  simp

/-- Witness for C6 amended at a concrete input: opt-in true at query
start, cleared during the await, query resolves true; the applied
state is built from the stale opt-in. -/
theorem update_stale_read_spec_check :
    ChangedProps.relevant ⟨true, false, false, false, false⟩ = true ∧
    update ⟨false, false, false, true⟩ ⟨true, false, false, false, false⟩
        ⟨false, true, Option.none, Option.none, Option.none⟩
        ⟨false, false, Option.none, Option.none, Option.none⟩
        (Except.ok true) ⟨ARMode.none, ⟨false, false⟩⟩ =
      Except.ok (applyCandidates ((true && true) && true) (false && false)
        (false && (false && false))) :=
  ⟨rfl, update_stale_read_spec ⟨false, false, false, true⟩ ⟨true, false, false, false, false⟩
    ⟨false, true, Option.none, Option.none, Option.none⟩
    ⟨false, false, Option.none, Option.none, Option.none⟩
    true ⟨ARMode.none, ⟨false, false⟩⟩ rfl⟩


/-- C7: for every parseable primary asset URL with scheme `sch` and
remainder `rest`, page location and title (empty when `alt` is
absent), activation in `ar-viewer` mode constructs and clicks exactly
the intent URI: the asset URL with its scheme replaced by `intent://`,
then `?link=` and the URL-encoded location, `&title=` and the
URL-encoded title, then the fragment
`#Intent;scheme=<sch>;package=com.google.ar.core;action=android.intent.action.VIEW;end;`. -/
theorem activateAR_arviewer_intent_uri (s : ARComponentState) (attrs : Attrs)
    (env : ActivateEnv) (fs0 : FSElem) (location : String)
    (ql : QuickLookAnchor) (av : ARViewerAnchor) (sch rest : String)
    (hmode : s.arMode = ARMode.arViewer)
    (hurl : parseURL (nullableToString attrs.src) = Option.some ⟨sch, rest⟩) :
    activateAR s attrs env fs0 location ql av =
      Except.ok { quickLook := ql,
                  arViewer := { href := Option.some ("intent://" ++ rest ++ "?link=" ++
                                  encodeURIComponent location ++ "&title=" ++
                                  encodeURIComponent (attrs.alt.getD "") ++
                                  "#Intent;scheme=" ++ sch ++
                                  ";package=com.google.ar.core;action=android.intent.action.VIEW;end;"),
                                clicked := true },
                  fullscreenRequested := true, fullscreenAwaited := false,
                  attachedOutput := Option.none, fullscreenElement := fs0,
                  exitedFullscreen := false, warnedNoMode := false } := by
  simp [activateAR, hmode, openARViewer, hurl, intent_serialize]

/-- Witness for C7 at a concrete input: `src` is
`https://m.co/a.glb`, `alt` absent, page `https://p.co`; the clicked
intent URI is exactly the claimed format for scheme `https`. -/
theorem activateAR_arviewer_intent_uri_check :
    activateAR ⟨ARMode.arViewer, ⟨true, true⟩⟩
        ⟨true, false, Option.none, Option.some "https://m.co/a.glb", Option.none⟩
        ⟨Except.ok (), Except.ok 0⟩ FSElem.none "https://p.co"
        initialQuickLookAnchor initialARViewerAnchor =
      Except.ok { quickLook := initialQuickLookAnchor,
                  arViewer := { href := Option.some ("intent://" ++ "m.co/a.glb" ++
                                  "?link=" ++ encodeURIComponent "https://p.co" ++
                                  "&title=" ++ encodeURIComponent "" ++
                                  "#Intent;scheme=" ++ "https" ++
                                  ";package=com.google.ar.core;action=android.intent.action.VIEW;end;"),
                                clicked := true },
                  fullscreenRequested := true, fullscreenAwaited := false,
                  attachedOutput := Option.none, fullscreenElement := FSElem.none,
                  exitedFullscreen := false, warnedNoMode := false } :=
  activateAR_arviewer_intent_uri ⟨ARMode.arViewer, ⟨true, true⟩⟩
    ⟨true, false, Option.none, Option.some "https://m.co/a.glb", Option.none⟩
    ⟨Except.ok (), Except.ok 0⟩ FSElem.none "https://p.co"
    initialQuickLookAnchor initialARViewerAnchor "https" "m.co/a.glb" rfl rfl

/-- C8: for every iOS asset URL, activation in `quick-look` mode sets
the `href` of the single module-level anchor (created once with
`rel="ar"`) to exactly that URL — no query parameters or any other
augmentation — and clicks it. -/
theorem activateAR_quicklook_target (s : ARComponentState) (attrs : Attrs)
    (env : ActivateEnv) (fs0 : FSElem) (location : String)
    (av : ARViewerAnchor) (url : String)
    (hmode : s.arMode = ARMode.quickLook)
    (hsrc : attrs.iosSrc = Option.some url) :
    activateAR s attrs env fs0 location initialQuickLookAnchor av =
      Except.ok { quickLook := { rel := "ar", href := Option.some url, clicked := true },
                  arViewer := av, fullscreenRequested := false, fullscreenAwaited := false,
                  attachedOutput := Option.none, fullscreenElement := fs0,
                  exitedFullscreen := false, warnedNoMode := false } := by
  simp [activateAR, hmode, hsrc, openIOSARQuickLook, nullableToString,
    initialQuickLookAnchor]

/-- Witness for C8 at the spec's scenario: iOS asset `model.usdz`; the
anchor targets exactly that string and is clicked. -/
theorem activateAR_quicklook_target_check :
    activateAR ⟨ARMode.quickLook, ⟨true, true⟩⟩
        ⟨false, false, Option.some "model.usdz", Option.none, Option.none⟩
        ⟨Except.ok (), Except.ok 0⟩ FSElem.none "https://p.co"
        initialQuickLookAnchor initialARViewerAnchor =
      Except.ok { quickLook := { rel := "ar", href := Option.some "model.usdz",
                                 clicked := true },
                  arViewer := initialARViewerAnchor, fullscreenRequested := false,
                  fullscreenAwaited := false, attachedOutput := Option.none,
                  fullscreenElement := FSElem.none, exitedFullscreen := false,
                  warnedNoMode := false } :=
  activateAR_quicklook_target ⟨ARMode.quickLook, ⟨true, true⟩⟩
    ⟨false, false, Option.some "model.usdz", Option.none, Option.none⟩
    ⟨Except.ok (), Except.ok 0⟩ FSElem.none "https://p.co"
    initialARViewerAnchor "model.usdz" rfl rfl

/-- C9: the `fullscreenchange` observer installed at construction
calls `renderer.stopPresenting()` exactly when the document's
fullscreen element is not this host while the shared renderer's
presented scene is still this host's scene; a throw from that call is
caught and logged (first equation: non-throwing stop; second:
throwing stop, where the handler still returns the logged outcome
rather than propagating); in every other case it does nothing. -/
theorem fullscreenchange_stop_behavior (fsEl : FSElem) (ours : Bool) :
    (onFullscreenchange fsEl ours (Except.ok ()) =
      if fsEl ≠ FSElem.host ∧ ours = true then ⟨true, false⟩ else ⟨false, false⟩) ∧
    (onFullscreenchange fsEl ours (Except.error ()) =
      if fsEl ≠ FSElem.host ∧ ours = true then ⟨true, true⟩ else ⟨false, false⟩) := by
  cases fsEl <;> cases ours <;> constructor <;> rfl

/-- C10: in `ar-viewer` mode, `activateAR()` initiates the fullscreen
request but never awaits or observes its promise: the outcome of
`activateAR()` is identical whatever the fullscreen result is, and
(when the asset URL parses) the intent anchor is clicked with the
fullscreen promise never awaited on this path — so the external viewer
launch happens even if the fullscreen request fails, and a fullscreen
rejection in this mode is caught nowhere in this path. -/
theorem activateAR_arviewer_ignores_fullscreen (s : ARComponentState) (attrs : Attrs)
    (fsRes fsRes' : Except Unit Unit) (presentRes : Except Unit Nat) (fs0 : FSElem)
    (location : String) (ql : QuickLookAnchor) (av : ARViewerAnchor) (u : URLRecord)
    (hmode : s.arMode = ARMode.arViewer)
    (hurl : parseURL (nullableToString attrs.src) = Option.some u) :
    activateAR s attrs ⟨fsRes, presentRes⟩ fs0 location ql av =
      activateAR s attrs ⟨fsRes', presentRes⟩ fs0 location ql av ∧
    ∃ r, activateAR s attrs ⟨fsRes, presentRes⟩ fs0 location ql av = Except.ok r ∧
      r.fullscreenRequested = true ∧ r.fullscreenAwaited = false ∧
      r.arViewer.clicked = true := by
  obtain ⟨sch, rest⟩ := u
  constructor
  · simp [activateAR, hmode]
  · have hok : activateAR s attrs ⟨fsRes, presentRes⟩ fs0 location ql av =
        Except.ok { quickLook := ql,
                    arViewer := { href := Option.some (URLRecord.serialize
                                    ⟨"intent", rest⟩ ++ "?link=" ++
                                    encodeURIComponent location ++ "&title=" ++
                                    encodeURIComponent (attrs.alt.getD "") ++
                                    "#Intent;scheme=" ++ sch ++
                                    ";package=com.google.ar.core;action=android.intent.action.VIEW;end;"),
                                  clicked := true },
                    fullscreenRequested := true, fullscreenAwaited := false,
                    attachedOutput := Option.none, fullscreenElement := fs0,
                    exitedFullscreen := false, warnedNoMode := false } := by
      simp [activateAR, hmode, openARViewer, hurl]
    exact ⟨_, hok, rfl, rfl, rfl⟩

/-- Witness for C10 at a concrete input: `src` parses, the fullscreen
request rejects, yet the activation's outcome equals the one with a
successful fullscreen request, resolving with the anchor clicked and
the fullscreen promise never awaited. -/
theorem activateAR_arviewer_ignores_fullscreen_check :
    (activateAR ⟨ARMode.arViewer, ⟨true, true⟩⟩
        ⟨true, false, Option.none, Option.some "https://m.co/a.glb", Option.none⟩
        ⟨Except.error (), Except.ok 0⟩ FSElem.none "https://p.co"
        initialQuickLookAnchor initialARViewerAnchor =
      activateAR ⟨ARMode.arViewer, ⟨true, true⟩⟩
        ⟨true, false, Option.none, Option.some "https://m.co/a.glb", Option.none⟩
        ⟨Except.ok (), Except.ok 0⟩ FSElem.none "https://p.co"
        initialQuickLookAnchor initialARViewerAnchor) ∧
    ∃ r, activateAR ⟨ARMode.arViewer, ⟨true, true⟩⟩
        ⟨true, false, Option.none, Option.some "https://m.co/a.glb", Option.none⟩
        ⟨Except.error (), Except.ok 0⟩ FSElem.none "https://p.co"
        initialQuickLookAnchor initialARViewerAnchor = Except.ok r ∧
      r.fullscreenRequested = true ∧ r.fullscreenAwaited = false ∧
      r.arViewer.clicked = true :=
  activateAR_arviewer_ignores_fullscreen ⟨ARMode.arViewer, ⟨true, true⟩⟩
    ⟨true, false, Option.none, Option.some "https://m.co/a.glb", Option.none⟩
    (Except.error ()) (Except.ok ()) (Except.ok 0) FSElem.none "https://p.co"
    initialQuickLookAnchor initialARViewerAnchor ⟨"https", "m.co/a.glb"⟩ rfl rfl
